import Mathlib

/-!
Shallow embedding of the disk_space NIF (src/native/diskspace/src/lib.rs).

The single exported operation `stat_fs` decodes a path term (binary or
charlist string), rejects empty paths, and then dispatches per platform:

- Linux: `fs::metadata` directory check, then `statfs`; byte counts are the
  block counts times `block_size` (wrapping u64 multiplication), and
  `used = total.saturating_sub(free)`.
- non-Linux POSIX: same but `statvfs` and `fragment_size`.
- Windows: UTF-8 decode, long-path normalization, UTF-16 transcoding,
  `GetFileAttributesW` directory check, then `GetDiskFreeSpaceExW`.

OS calls are modelled as an environment record supplying their results; the
control flow and arithmetic are translated from the source. Machine u64
arithmetic is Nat with `% 2^64` where the source multiplies, and Nat
truncated subtraction models `saturating_sub`.
-/

namespace DiskSpace

/-- The atoms declared in the `atoms!` block of lib.rs. -/
inductive Atom where
  | ok
  | error
  | wrong_arity
  | invalid_path
  | alloc_failed
  | path_conversion_failed
  | not_directory
  | winapi_failed
  | statvfs_failed
  | statfs_failed
  | available
  | free
  | total
  | used
  | errno
  | errstr
  deriving DecidableEq, BEq

/-- The Erlang-visible name of each atom: the `atoms!` macro uses the
identifier text as the atom text. -/
def Atom.name : Atom → String
  | .ok => "ok"
  | .error => "error"
  | .wrong_arity => "wrong_arity"
  | .invalid_path => "invalid_path"
  | .alloc_failed => "alloc_failed"
  | .path_conversion_failed => "path_conversion_failed"
  | .not_directory => "not_directory"
  | .winapi_failed => "winapi_failed"
  | .statvfs_failed => "statvfs_failed"
  | .statfs_failed => "statfs_failed"
  | .available => "available"
  | .free => "free"
  | .total => "total"
  | .used => "used"
  | .errno => "errno"
  | .errstr => "errstr"

/-- The term returned by `stat_fs`: either the `{ok, map}` success carrying
the four byte counts, a bare `{error, Reason}` tuple, or an
`{error, Reason, Detail}` tuple whose detail map holds the OS error code
under `errno` and the resolved message under `errstr`. -/
inductive FsResult where
  | okStats (avail free total used : Nat)
  | err (reason : Atom)
  | errDetail (reason : Atom) (code : Int) (msg : String)
  deriving DecidableEq, BEq

/-- Projection onto the error discriminant of a result, if any. -/
def errorReason : FsResult → Option Atom
  | .okStats _ _ _ _ => none
  | .err r => some r
  | .errDetail r _ _ => some r

/-- The path argument as the NIF sees it: a binary decodes directly to its
bytes, a charlist string decodes to a Rust String whose `into_bytes` gives
its UTF-8 bytes, and any other term fails to decode. -/
inductive PathTerm where
  | bin (bytes : List Nat)
  | str (utf8Bytes : List Nat)
  | other
  deriving DecidableEq

/-- The decode cascade at the top of `stat_fs`: try `Binary`, fall back to
`String` (whose bytes we carry directly), otherwise no path. -/
def decodePath : PathTerm → Option (List Nat)
  | .bin b => some b
  | .str s => some s
  | .other => none

/-- The `{error, Reason}` tuple of `make_error_tuple`. -/
def make_error_tuple (reason : Atom) : FsResult :=
  FsResult.err reason

/-- A POSIX `io::Error` value: `raw_os_error()` and the `to_string()`
message. -/
structure OsError where
  rawOsError : Option Int
  message : String
  deriving DecidableEq

/-- The slice of `fs::Metadata` the code consults. -/
structure Metadata where
  isDir : Bool
  deriving DecidableEq

/-- The `{error, Reason, Detail}` tuple of `make_errno_error_tuple`:
`errno` is `raw_os_error().unwrap_or(0)`, `errstr` is the message. -/
def make_errno_error_tuple (reason : Atom) (e : OsError) : FsResult :=
  FsResult.errDetail reason (e.rawOsError.getD 0) e.message

/-- The fields of the Linux `Statfs` buffer the code reads (after the
`as u64` casts). -/
structure StatfsBuf where
  blockSize : Nat
  blocksAvailable : Nat
  blocksFree : Nat
  blocks : Nat
  deriving DecidableEq

/-- The fields of the POSIX `Statvfs` buffer (after the `as u64` casts).
The buffer reports both a block size and a fragment size; the code scales
by the fragment size. -/
structure StatvfsBuf where
  blockSize : Nat
  fragmentSize : Nat
  blocksAvailable : Nat
  blocksFree : Nat
  blocks : Nat
  deriving DecidableEq

/-- Results of the OS calls a Linux `stat_fs` run performs: `fs::metadata`,
`statfs`, and errno-to-message resolution used by
`io::Error::from_raw_os_error(...).to_string()`. -/
structure LinuxEnv where
  metadata : List Nat → Except OsError Metadata
  statfsCall : List Nat → Except Int StatfsBuf
  strerror : Int → String

/-- Results of the OS calls a non-Linux POSIX `stat_fs` run performs. -/
structure StatvfsEnv where
  metadata : List Nat → Except OsError Metadata
  statvfsCall : List Nat → Except Int StatvfsBuf
  strerror : Int → String

/-- The `stat_fs` NIF on Linux (`cfg(unix)` plus `cfg(target_os = linux)`
branches of lib.rs). -/
def stat_fs_linux (env : LinuxEnv) (path_term : PathTerm) : FsResult :=
  match decodePath path_term with
  | none => make_error_tuple Atom.invalid_path
  | some path_bytes =>
    if path_bytes.isEmpty then make_error_tuple Atom.invalid_path
    else
      match env.metadata path_bytes with
      | Except.error e => make_errno_error_tuple Atom.not_directory e
      | Except.ok m =>
        if m.isDir then
          match env.statfsCall path_bytes with
          | Except.error errnum =>
            make_errno_error_tuple Atom.statfs_failed
              { rawOsError := some errnum, message := env.strerror errnum }
          | Except.ok buf =>
            FsResult.okStats
              (buf.blocksAvailable * buf.blockSize % 2 ^ 64)
              (buf.blocksFree * buf.blockSize % 2 ^ 64)
              (buf.blocks * buf.blockSize % 2 ^ 64)
              (buf.blocks * buf.blockSize % 2 ^ 64
                - buf.blocksFree * buf.blockSize % 2 ^ 64)
        else make_error_tuple Atom.not_directory

/-- The `stat_fs` NIF on non-Linux POSIX (`cfg(unix)` plus
`cfg(not(target_os = linux))` branches of lib.rs). -/
def stat_fs_statvfs (env : StatvfsEnv) (path_term : PathTerm) : FsResult :=
  match decodePath path_term with
  | none => make_error_tuple Atom.invalid_path
  | some path_bytes =>
    if path_bytes.isEmpty then make_error_tuple Atom.invalid_path
    else
      match env.metadata path_bytes with
      | Except.error e => make_errno_error_tuple Atom.not_directory e
      | Except.ok m =>
        if m.isDir then
          match env.statvfsCall path_bytes with
          | Except.error errnum =>
            make_errno_error_tuple Atom.statvfs_failed
              { rawOsError := some errnum, message := env.strerror errnum }
          | Except.ok buf =>
            FsResult.okStats
              (buf.blocksAvailable * buf.fragmentSize % 2 ^ 64)
              (buf.blocksFree * buf.fragmentSize % 2 ^ 64)
              (buf.blocks * buf.fragmentSize % 2 ^ 64)
              (buf.blocks * buf.fragmentSize % 2 ^ 64
                - buf.blocksFree * buf.fragmentSize % 2 ^ 64)
        else make_error_tuple Atom.not_directory

/-- Helper for UTF-8 validation: a continuation byte 0x80..0xBF. -/
def contByte (b : Nat) : Bool :=
  0x80 ≤ b && b ≤ 0xBF

/-- Strict UTF-8 validation of a byte sequence, as performed by Rust's
`String::from_utf8` (rejecting overlong encodings, surrogates, and
codepoints above U+10FFFF). -/
def isValidUtf8 : List Nat → Bool
  | [] => true
  | b :: r =>
    if b ≤ 0x7F then isValidUtf8 r
    else if 0xC2 ≤ b && b ≤ 0xDF then
      match r with
      | c1 :: r1 => contByte c1 && isValidUtf8 r1
      | [] => false
    else if b = 0xE0 then
      match r with
      | c1 :: c2 :: r2 =>
        (0xA0 ≤ c1 && c1 ≤ 0xBF) && contByte c2 && isValidUtf8 r2
      | _ => false
    else if (0xE1 ≤ b && b ≤ 0xEC) || b = 0xEE || b = 0xEF then
      match r with
      | c1 :: c2 :: r2 => contByte c1 && contByte c2 && isValidUtf8 r2
      | _ => false
    else if b = 0xED then
      match r with
      | c1 :: c2 :: r2 =>
        (0x80 ≤ c1 && c1 ≤ 0x9F) && contByte c2 && isValidUtf8 r2
      | _ => false
    else if b = 0xF0 then
      match r with
      | c1 :: c2 :: c3 :: r3 =>
        (0x90 ≤ c1 && c1 ≤ 0xBF) && contByte c2 && contByte c3 && isValidUtf8 r3
      | _ => false
    else if 0xF1 ≤ b && b ≤ 0xF3 then
      match r with
      | c1 :: c2 :: c3 :: r3 =>
        contByte c1 && contByte c2 && contByte c3 && isValidUtf8 r3
      | _ => false
    else if b = 0xF4 then
      match r with
      | c1 :: c2 :: c3 :: r3 =>
        (0x80 ≤ c1 && c1 ≤ 0x8F) && contByte c2 && contByte c3 && isValidUtf8 r3
      | _ => false
    else false

/-- The UTF-8 bytes of the long-path marker string. -/
def longMarker : List Nat := [92, 92, 63, 92]

/-- The UTF-8 bytes of the UNC long-path marker string. -/
def uncMarker : List Nat := [92, 92, 63, 92, 85, 78, 67]

/-- The Windows long-path rewriting of lib.rs, on the UTF-8 bytes of the
path string: a path already starting with the marker is kept, a UNC path
gets the UNC marker glued before its bytes from index 1 on, and any other
path gets the plain marker prepended. -/
def normalizeLongPath (p : List Nat) : List Nat :=
  if List.isPrefixOf longMarker p then p
  else if List.isPrefixOf [92, 92] p then uncMarker ++ p.drop 1
  else longMarker ++ p

/-- The value of the Win32 `INVALID_FILE_ATTRIBUTES` constant. -/
def INVALID_FILE_ATTRIBUTES : Nat := 4294967295

/-- The value of the Win32 `FILE_ATTRIBUTE_DIRECTORY` flag. -/
def FILE_ATTRIBUTE_DIRECTORY : Nat := 16

/-- The `{error, Reason, Detail}` tuple of `make_winapi_error_tuple`:
`errno` is the Win32 code, `errstr` the trimmed `FormatMessageW` text, or
the fixed fallback when formatting returned nothing. -/
def make_winapi_error_tuple (reason : Atom) (errnum : Nat)
    (formatted : Option String) : FsResult :=
  FsResult.errDetail reason (Int.ofNat errnum)
    (match formatted with
     | none => "Unknown WinAPI error"
     | some s => s.trim)

/-- Results of the OS calls a Windows `stat_fs` run performs, keyed by the
UTF-8 bytes of the (normalized) path handed to the wide-string call:
`GetFileAttributesW`, the `GetLastError` value observed after a failed
attribute query, `GetDiskFreeSpaceExW` returning `(avail, total, free)` on
success, the `GetLastError` value after a failed space query, and
`FormatMessageW` (none models a zero-length or null result). -/
structure WinEnv where
  getFileAttributesW : List Nat → Nat
  lastErrorAttr : Nat
  getDiskFreeSpaceExW : List Nat → Option (Nat × Nat × Nat)
  lastErrorSpace : Nat
  formatMessageW : Nat → Option String

/-- The `stat_fs` NIF on Windows (`cfg(windows)` branch of lib.rs).
`WideCString::from_str` fails exactly when the string holds an interior
nul, so transcoding failure is modelled as the byte 0 occurring in the
normalized path. -/
def stat_fs_windows (env : WinEnv) (path_term : PathTerm) : FsResult :=
  match decodePath path_term with
  | none => make_error_tuple Atom.invalid_path
  | some path_bytes =>
    if path_bytes.isEmpty then make_error_tuple Atom.invalid_path
    else if !isValidUtf8 path_bytes then
      make_error_tuple Atom.path_conversion_failed
    else if (normalizeLongPath path_bytes).contains 0 then
      make_error_tuple Atom.path_conversion_failed
    else
      if env.getFileAttributesW (normalizeLongPath path_bytes)
          = INVALID_FILE_ATTRIBUTES then
        make_winapi_error_tuple Atom.winapi_failed env.lastErrorAttr
          (env.formatMessageW env.lastErrorAttr)
      else if env.getFileAttributesW (normalizeLongPath path_bytes)
          &&& FILE_ATTRIBUTE_DIRECTORY = 0 then
        make_error_tuple Atom.not_directory
      else
        match env.getDiskFreeSpaceExW (normalizeLongPath path_bytes) with
        | none =>
          make_winapi_error_tuple Atom.winapi_failed env.lastErrorSpace
            (env.formatMessageW env.lastErrorSpace)
        | some (avail, total, free) =>
          FsResult.okStats avail free total (total - free)

/-- The errno value POSIX assigns to "no such file or directory". -/
def ENOENT : Int := 2

/-- Membership of a result's error discriminant in a set of atoms;
successes pass vacuously. -/
def discriminantIn (res : FsResult) (s : List Atom) : Bool :=
  match res with
  | .okStats _ _ _ _ => true
  | .err a => s.contains a
  | .errDetail a _ _ => s.contains a

/-- Every discriminant `stat_fs` can actually put in an error tuple. -/
def allowedAtoms : List Atom :=
  [Atom.invalid_path, Atom.path_conversion_failed, Atom.not_directory,
   Atom.statfs_failed, Atom.statvfs_failed, Atom.winapi_failed,
   Atom.alloc_failed]

/-- A concrete Linux environment whose metadata query finds a directory
and whose statfs call reports block size 4096 and counts 10, 20, 30. -/
def sampleLinuxEnv : LinuxEnv where
  metadata := fun _ => Except.ok { isDir := true }
  statfsCall := fun _ => Except.ok
    { blockSize := 4096, blocksAvailable := 10, blocksFree := 20, blocks := 30 }
  strerror := fun _ => ""

/-- A concrete Linux environment whose metadata query finds a
non-directory entry. -/
def fileLinuxEnv : LinuxEnv where
  metadata := fun _ => Except.ok { isDir := false }
  statfsCall := fun _ => Except.ok
    { blockSize := 1, blocksAvailable := 0, blocksFree := 0, blocks := 0 }
  strerror := fun _ => ""

/-- A concrete statvfs environment whose metadata query finds a
non-directory entry. -/
def fileStatvfsEnv : StatvfsEnv where
  metadata := fun _ => Except.ok { isDir := false }
  statvfsCall := fun _ => Except.ok
    { blockSize := 1, fragmentSize := 1, blocksAvailable := 0,
      blocksFree := 0, blocks := 0 }
  strerror := fun _ => ""

/-- A concrete Windows environment whose attribute query reports a plain
file (archive attribute only, directory bit unset). -/
def fileWinEnv : WinEnv where
  getFileAttributesW := fun _ => 32
  lastErrorAttr := 0
  getDiskFreeSpaceExW := fun _ => some (0, 0, 0)
  lastErrorSpace := 0
  formatMessageW := fun _ => none

/-- A concrete POSIX metadata failure carrying errno 2. -/
def enoentError : OsError where
  rawOsError := some 2
  message := "No such file or directory (os error 2)"

/-- A concrete Linux environment whose metadata query fails with ENOENT. -/
def enoentLinuxEnv : LinuxEnv where
  metadata := fun _ => Except.error enoentError
  statfsCall := fun _ => Except.error 2
  strerror := fun _ => "No such file or directory"

/-- A concrete statvfs environment whose metadata query fails with
ENOENT. -/
def enoentStatvfsEnv : StatvfsEnv where
  metadata := fun _ => Except.error enoentError
  statvfsCall := fun _ => Except.error 2
  strerror := fun _ => "No such file or directory"

/-- A concrete statvfs environment reporting a directory and a buffer
whose fragment size 512 differs from its block size 4096. -/
def sampleStatvfsEnv : StatvfsEnv where
  metadata := fun _ => Except.ok { isDir := true }
  statvfsCall := fun _ => Except.ok
    { blockSize := 4096, fragmentSize := 512, blocksAvailable := 3,
      blocksFree := 5, blocks := 7 }
  strerror := fun _ => ""

/-- A concrete Linux environment whose statfs buffer makes the block
count times the block size overflow 64 bits. -/
def wrapLinuxEnv : LinuxEnv where
  metadata := fun _ => Except.ok { isDir := true }
  statfsCall := fun _ => Except.ok
    { blockSize := 4, blocksAvailable := 2 ^ 63, blocksFree := 1,
      blocks := 2 ^ 63 }
  strerror := fun _ => ""

/-- A concrete statvfs environment whose buffer makes the block count
times the fragment size overflow 64 bits. -/
def wrapStatvfsEnv : StatvfsEnv where
  metadata := fun _ => Except.ok { isDir := true }
  statvfsCall := fun _ => Except.ok
    { blockSize := 4096, fragmentSize := 2 ^ 32, blocksAvailable := 2 ^ 32,
      blocksFree := 1, blocks := 2 ^ 32 }
  strerror := fun _ => ""

/-- A concrete Linux environment whose statfs call fails with errno 5. -/
def statfsFailLinuxEnv : LinuxEnv where
  metadata := fun _ => Except.ok { isDir := true }
  statfsCall := fun _ => Except.error 5
  strerror := fun _ => "Input or output error"

/-- A concrete statvfs environment whose statvfs call fails with errno
13. -/
def statvfsFailEnv : StatvfsEnv where
  metadata := fun _ => Except.ok { isDir := true }
  statvfsCall := fun _ => Except.error 13
  strerror := fun _ => "Permission denied"

/-- A concrete Windows environment whose attribute query fails, with
last error 3 and a formatted system message. -/
def attrFailWinEnv : WinEnv where
  getFileAttributesW := fun _ => 4294967295
  lastErrorAttr := 3
  getDiskFreeSpaceExW := fun _ => none
  lastErrorSpace := 3
  formatMessageW := fun _ => some "The system cannot find the path specified. "

/-- Inversion helper: any successful Linux result has a saturating used
field. -/
theorem used_field_linux (env : LinuxEnv) (p : PathTerm) (a f t u : Nat)
    (h : stat_fs_linux env p = FsResult.okStats a f t u) : u = t - f := by
  unfold stat_fs_linux at h
  repeat' split at h
  all_goals simp_all [make_error_tuple, make_errno_error_tuple]
  all_goals omega

/-- Inversion helper: any successful statvfs result has a saturating used
field. -/
theorem used_field_statvfs (env : StatvfsEnv) (p : PathTerm) (a f t u : Nat)
    (h : stat_fs_statvfs env p = FsResult.okStats a f t u) : u = t - f := by
  unfold stat_fs_statvfs at h
  repeat' split at h
  all_goals simp_all [make_error_tuple, make_errno_error_tuple]
  all_goals omega

/-- Inversion helper: any successful Windows result has a saturating used
field. -/
theorem used_field_windows (env : WinEnv) (p : PathTerm) (a f t u : Nat)
    (h : stat_fs_windows env p = FsResult.okStats a f t u) : u = t - f := by
  unfold stat_fs_windows at h
  repeat' split at h
  all_goals simp_all [make_error_tuple, make_winapi_error_tuple]
  all_goals omega

/-- C1: on every platform the used field of every successful stat_fs
result equals total.saturating_sub(free), so it never goes negative and
never wraps; and whenever free does not exceed total the fields satisfy
used + free = total. -/
theorem stat_fs_used_saturating (a f t u a2 f2 t2 u2 : Nat)
    (h : (∃ env p, stat_fs_linux env p = FsResult.okStats a f t u) ∨
         (∃ env p, stat_fs_statvfs env p = FsResult.okStats a f t u) ∨
         (∃ env p, stat_fs_windows env p = FsResult.okStats a f t u))
    (h2 : (∃ env p, stat_fs_linux env p = FsResult.okStats a2 f2 t2 u2) ∨
          (∃ env p, stat_fs_statvfs env p = FsResult.okStats a2 f2 t2 u2) ∨
          (∃ env p, stat_fs_windows env p = FsResult.okStats a2 f2 t2 u2))
    (hft : f2 ≤ t2) :
    u = t - f ∧ u2 + f2 = t2 := by
  have hu : u = t - f := by
    rcases h with ⟨env, p, h⟩ | ⟨env, p, h⟩ | ⟨env, p, h⟩
    · exact used_field_linux env p a f t u h
    · exact used_field_statvfs env p a f t u h
    · exact used_field_windows env p a f t u h
  have hu2 : u2 = t2 - f2 := by
    rcases h2 with ⟨env, p, h2⟩ | ⟨env, p, h2⟩ | ⟨env, p, h2⟩
    · exact used_field_linux env p a2 f2 t2 u2 h2
    · exact used_field_statvfs env p a2 f2 t2 u2 h2
    · exact used_field_windows env p a2 f2 t2 u2 h2
  exact ⟨hu, by omega⟩

/-- Witness for C1 at a concrete successful Linux run. -/
theorem stat_fs_used_saturating_witness :
    stat_fs_linux sampleLinuxEnv (PathTerm.bin [47])
      = FsResult.okStats 40960 81920 122880 40960 ∧
    (40960 = 122880 - 81920 ∧ 40960 + 81920 = 122880) := by
  have h : stat_fs_linux sampleLinuxEnv (PathTerm.bin [47])
      = FsResult.okStats 40960 81920 122880 40960 := by decide
  exact ⟨h, stat_fs_used_saturating 40960 81920 122880 40960
    40960 81920 122880 40960
    (Or.inl ⟨sampleLinuxEnv, PathTerm.bin [47], h⟩)
    (Or.inl ⟨sampleLinuxEnv, PathTerm.bin [47], h⟩) (by decide)⟩

/-- C3: a call whose decoded path is empty, be it the empty binary or the
empty string, yields the bare invalid_path error on every platform. -/
theorem stat_fs_empty_invalid_path (envL : LinuxEnv) (envV : StatvfsEnv)
    (envW : WinEnv) :
    stat_fs_linux envL (PathTerm.bin []) = FsResult.err Atom.invalid_path ∧
    stat_fs_linux envL (PathTerm.str []) = FsResult.err Atom.invalid_path ∧
    stat_fs_statvfs envV (PathTerm.bin []) = FsResult.err Atom.invalid_path ∧
    stat_fs_statvfs envV (PathTerm.str []) = FsResult.err Atom.invalid_path ∧
    stat_fs_windows envW (PathTerm.bin []) = FsResult.err Atom.invalid_path ∧
    stat_fs_windows envW (PathTerm.str []) = FsResult.err Atom.invalid_path :=
  ⟨rfl, rfl, rfl, rfl, rfl, rfl⟩

/-- Evaluation helper: a Linux run whose metadata query finds a directory
and whose statfs call succeeds returns the scaled statfs counts. -/
theorem stat_fs_linux_eval (env : LinuxEnv) (p : PathTerm) (bytes : List Nat)
    (m : Metadata) (buf : StatfsBuf)
    (hdec : decodePath p = some bytes) (hne : bytes.isEmpty = false)
    (hm : env.metadata bytes = Except.ok m) (hd : m.isDir = true)
    (hb : env.statfsCall bytes = Except.ok buf) :
    stat_fs_linux env p = FsResult.okStats
      (buf.blocksAvailable * buf.blockSize % 2 ^ 64)
      (buf.blocksFree * buf.blockSize % 2 ^ 64)
      (buf.blocks * buf.blockSize % 2 ^ 64)
      (buf.blocks * buf.blockSize % 2 ^ 64
        - buf.blocksFree * buf.blockSize % 2 ^ 64) := by
  unfold stat_fs_linux
  rw [hdec]
  simp only [hne, hm, hd, hb, Bool.false_eq_true, if_false, if_true]

/-- Evaluation helper: a statvfs run whose metadata query finds a directory
and whose statvfs call succeeds returns the counts scaled by the fragment
size. -/
theorem stat_fs_statvfs_eval (env : StatvfsEnv) (p : PathTerm)
    (bytes : List Nat) (m : Metadata) (buf : StatvfsBuf)
    (hdec : decodePath p = some bytes) (hne : bytes.isEmpty = false)
    (hm : env.metadata bytes = Except.ok m) (hd : m.isDir = true)
    (hb : env.statvfsCall bytes = Except.ok buf) :
    stat_fs_statvfs env p = FsResult.okStats
      (buf.blocksAvailable * buf.fragmentSize % 2 ^ 64)
      (buf.blocksFree * buf.fragmentSize % 2 ^ 64)
      (buf.blocks * buf.fragmentSize % 2 ^ 64)
      (buf.blocks * buf.fragmentSize % 2 ^ 64
        - buf.blocksFree * buf.fragmentSize % 2 ^ 64) := by
  unfold stat_fs_statvfs
  rw [hdec]
  simp only [hne, hm, hd, hb, Bool.false_eq_true, if_false, if_true]

/-- C2: a path naming an existing entry that is not a directory yields the
bare not_directory error, with no detail payload and never a success, on
Linux, on non-Linux POSIX, and on Windows. -/
theorem stat_fs_file_not_directory (p : PathTerm) (bytes : List Nat)
    (envL : LinuxEnv) (envV : StatvfsEnv) (envW : WinEnv) (mL mV : Metadata)
    (hdec : decodePath p = some bytes) (hne : bytes.isEmpty = false)
    (hmL : envL.metadata bytes = Except.ok mL) (hdL : mL.isDir = false)
    (hmV : envV.metadata bytes = Except.ok mV) (hdV : mV.isDir = false)
    (hutf : isValidUtf8 bytes = true)
    (hnul : 0 ∉ normalizeLongPath bytes)
    (hattr : envW.getFileAttributesW (normalizeLongPath bytes)
      ≠ INVALID_FILE_ATTRIBUTES)
    (hbit : envW.getFileAttributesW (normalizeLongPath bytes)
      &&& FILE_ATTRIBUTE_DIRECTORY = 0) :
    stat_fs_linux envL p = FsResult.err Atom.not_directory ∧
    stat_fs_statvfs envV p = FsResult.err Atom.not_directory ∧
    stat_fs_windows envW p = FsResult.err Atom.not_directory := by
  refine ⟨?_, ?_, ?_⟩
  · unfold stat_fs_linux
    rw [hdec]
    simp [hne, hmL, hdL, make_error_tuple]
  · unfold stat_fs_statvfs
    rw [hdec]
    simp [hne, hmV, hdV, make_error_tuple]
  · unfold stat_fs_windows
    rw [hdec]
    simp [hne, hutf, hnul, hattr, hbit, make_error_tuple]

/-- Witness for C2 at the path byte 97 on all three platforms. -/
theorem stat_fs_file_not_directory_witness :
    stat_fs_linux fileLinuxEnv (PathTerm.bin [97])
      = FsResult.err Atom.not_directory ∧
    stat_fs_statvfs fileStatvfsEnv (PathTerm.bin [97])
      = FsResult.err Atom.not_directory ∧
    stat_fs_windows fileWinEnv (PathTerm.bin [97])
      = FsResult.err Atom.not_directory :=
  stat_fs_file_not_directory (PathTerm.bin [97]) [97]
    fileLinuxEnv fileStatvfsEnv fileWinEnv
    { isDir := false } { isDir := false }
    (by decide) (by decide) rfl (by decide) rfl (by decide)
    (by decide) (by decide) (by decide) (by decide)

/-- C4: on POSIX, a metadata query failing with errno ENOENT (the path
does not exist) yields the not_directory error with a detail payload
whose errno field is ENOENT and whose errstr field is the resolved OS
message. -/
theorem stat_fs_enoent_detail (envL : LinuxEnv) (envV : StatvfsEnv)
    (p : PathTerm) (bytes : List Nat) (e : OsError)
    (hdec : decodePath p = some bytes) (hne : bytes.isEmpty = false)
    (hmL : envL.metadata bytes = Except.error e)
    (hmV : envV.metadata bytes = Except.error e)
    (henoent : e.rawOsError = some ENOENT) :
    stat_fs_linux envL p
      = FsResult.errDetail Atom.not_directory ENOENT e.message ∧
    stat_fs_statvfs envV p
      = FsResult.errDetail Atom.not_directory ENOENT e.message := by
  constructor
  · unfold stat_fs_linux
    rw [hdec]
    simp [hne, hmL, make_errno_error_tuple, henoent]
  · unfold stat_fs_statvfs
    rw [hdec]
    simp [hne, hmV, make_errno_error_tuple, henoent]

/-- Witness for C4 at a concrete non-existent path query. -/
theorem stat_fs_enoent_detail_witness :
    stat_fs_linux enoentLinuxEnv (PathTerm.bin [47, 120])
      = FsResult.errDetail Atom.not_directory ENOENT
          "No such file or directory (os error 2)" ∧
    stat_fs_statvfs enoentStatvfsEnv (PathTerm.bin [47, 120])
      = FsResult.errDetail Atom.not_directory ENOENT
          "No such file or directory (os error 2)" :=
  stat_fs_enoent_detail enoentLinuxEnv enoentStatvfsEnv
    (PathTerm.bin [47, 120]) [47, 120] enoentError
    (by decide) (by decide) rfl rfl rfl

/-- C5 counterexample: the bare drive root written in long form is kept
unchanged by the normalizer, so no trailing separator is appended and the
normalized form is not the claimed one with a separator. -/
theorem normalize_bare_drive_root_counterexample :
    normalizeLongPath [92, 92, 63, 92, 67, 58] = [92, 92, 63, 92, 67, 58] ∧
    normalizeLongPath [92, 92, 63, 92, 67, 58]
      ≠ [92, 92, 63, 92, 67, 58, 92] := by
  decide

/-- C5 amended: a path already starting with the long-path marker is
passed on unchanged (in particular no separator is appended to a bare
drive root), a UNC path gets the UNC marker glued before its bytes from
index 1 on, and any other path gets the plain marker prepended. -/
theorem normalizeLongPath_cases (p q r : List Nat)
    (hp : List.isPrefixOf longMarker p = true)
    (hq1 : List.isPrefixOf longMarker q = false)
    (hq2 : List.isPrefixOf [92, 92] q = true)
    (hr1 : List.isPrefixOf longMarker r = false)
    (hr2 : List.isPrefixOf [92, 92] r = false) :
    normalizeLongPath p = p ∧
    normalizeLongPath q = uncMarker ++ q.drop 1 ∧
    normalizeLongPath r = longMarker ++ r := by
  unfold normalizeLongPath
  simp [hp, hq1, hq2, hr1, hr2]

/-- Witness for the amended C5 at the three path shapes: a long-form
path, a UNC path, and a drive-relative path. -/
theorem normalizeLongPath_cases_witness :
    normalizeLongPath [92, 92, 63, 92, 67, 58, 92, 120]
      = [92, 92, 63, 92, 67, 58, 92, 120] ∧
    normalizeLongPath [92, 92, 115, 114, 118, 92, 115, 104]
      = uncMarker ++ [92, 92, 115, 114, 118, 92, 115, 104].drop 1 ∧
    normalizeLongPath [67, 58, 92, 102] = longMarker ++ [67, 58, 92, 102] :=
  normalizeLongPath_cases
    [92, 92, 63, 92, 67, 58, 92, 120]
    [92, 92, 115, 114, 118, 92, 115, 104]
    [67, 58, 92, 102]
    (by decide) (by decide) (by decide) (by decide) (by decide)

/-- Discriminant helper: every Linux error tuple uses an atom from the
allowed set. -/
theorem discriminant_linux (env : LinuxEnv) (p : PathTerm) :
    discriminantIn (stat_fs_linux env p) allowedAtoms = true := by
  unfold stat_fs_linux
  repeat' split
  all_goals simp [discriminantIn, allowedAtoms, make_error_tuple,
    make_errno_error_tuple]
  all_goals decide

/-- Discriminant helper: every statvfs error tuple uses an atom from the
allowed set. -/
theorem discriminant_statvfs (env : StatvfsEnv) (p : PathTerm) :
    discriminantIn (stat_fs_statvfs env p) allowedAtoms = true := by
  unfold stat_fs_statvfs
  repeat' split
  all_goals simp [discriminantIn, allowedAtoms, make_error_tuple,
    make_errno_error_tuple]
  all_goals decide

/-- Discriminant helper: every Windows error tuple uses an atom from the
allowed set. -/
theorem discriminant_windows (env : WinEnv) (p : PathTerm) :
    discriminantIn (stat_fs_windows env p) allowedAtoms = true := by
  unfold stat_fs_windows
  repeat' split
  all_goals simp [discriminantIn, allowedAtoms, make_error_tuple,
    make_winapi_error_tuple]
  all_goals decide

/-- C6 counterexample: a Linux statfs failure is tagged statfs_failed,
whose atom name lies outside the claimed discriminant set, which names
platform_stat_failed instead. -/
theorem stat_fs_discriminant_counterexample :
    errorReason (stat_fs_linux statfsFailLinuxEnv (PathTerm.bin [47]))
      = some Atom.statfs_failed ∧
    (["invalid_path", "path_conversion_failed", "not_directory",
      "platform_stat_failed", "winapi_failed", "alloc_failed"].contains
        (Atom.name Atom.statfs_failed)) = false := by
  exact ⟨rfl, by decide⟩

/-- C6 amended: every error discriminant of stat_fs lies in the set of
atoms invalid_path, path_conversion_failed, not_directory, statfs_failed
(Linux), statvfs_failed (non-Linux POSIX), winapi_failed (Windows) and
alloc_failed; and on POSIX a failure of the statistics syscall itself is
mapped to statfs_failed respectively statvfs_failed, carrying the raw
errno and the resolved message string. -/
theorem stat_fs_error_taxonomy
    (e1 : LinuxEnv) (e2 : StatvfsEnv) (e3 : WinEnv) (t1 t2 t3 : PathTerm)
    (envL : LinuxEnv) (envV : StatvfsEnv) (p q : PathTerm)
    (bytesL bytesV : List Nat) (mL mV : Metadata) (nL nV : Int)
    (hdecL : decodePath p = some bytesL) (hneL : bytesL.isEmpty = false)
    (hmL : envL.metadata bytesL = Except.ok mL) (hdL : mL.isDir = true)
    (hsL : envL.statfsCall bytesL = Except.error nL)
    (hdecV : decodePath q = some bytesV) (hneV : bytesV.isEmpty = false)
    (hmV : envV.metadata bytesV = Except.ok mV) (hdV : mV.isDir = true)
    (hsV : envV.statvfsCall bytesV = Except.error nV) :
    discriminantIn (stat_fs_linux e1 t1) allowedAtoms = true ∧
    discriminantIn (stat_fs_statvfs e2 t2) allowedAtoms = true ∧
    discriminantIn (stat_fs_windows e3 t3) allowedAtoms = true ∧
    stat_fs_linux envL p
      = FsResult.errDetail Atom.statfs_failed nL (envL.strerror nL) ∧
    stat_fs_statvfs envV q
      = FsResult.errDetail Atom.statvfs_failed nV (envV.strerror nV) := by
  refine ⟨discriminant_linux e1 t1, discriminant_statvfs e2 t2,
    discriminant_windows e3 t3, ?_, ?_⟩
  · unfold stat_fs_linux
    rw [hdecL]
    simp [hneL, hmL, hdL, hsL, make_errno_error_tuple]
  · unfold stat_fs_statvfs
    rw [hdecV]
    simp [hneV, hmV, hdV, hsV, make_errno_error_tuple]

/-- Witness for the amended C6 at concrete failing stat calls. -/
theorem stat_fs_error_taxonomy_witness :
    discriminantIn (stat_fs_linux statfsFailLinuxEnv (PathTerm.bin [47]))
      allowedAtoms = true ∧
    discriminantIn (stat_fs_statvfs statvfsFailEnv (PathTerm.bin [47]))
      allowedAtoms = true ∧
    discriminantIn (stat_fs_windows fileWinEnv (PathTerm.bin [47]))
      allowedAtoms = true ∧
    stat_fs_linux statfsFailLinuxEnv (PathTerm.bin [47])
      = FsResult.errDetail Atom.statfs_failed 5 "Input or output error" ∧
    stat_fs_statvfs statvfsFailEnv (PathTerm.bin [47])
      = FsResult.errDetail Atom.statvfs_failed 13 "Permission denied" :=
  stat_fs_error_taxonomy statfsFailLinuxEnv statvfsFailEnv fileWinEnv
    (PathTerm.bin [47]) (PathTerm.bin [47]) (PathTerm.bin [47])
    statfsFailLinuxEnv statvfsFailEnv
    (PathTerm.bin [47]) (PathTerm.bin [47]) [47] [47]
    { isDir := true } { isDir := true } 5 13
    (by decide) (by decide) rfl (by decide) rfl
    (by decide) (by decide) rfl (by decide) rfl

/-- C7: when the Windows attribute query fails, stat_fs returns the
winapi_failed error carrying the Win32 last-error code and the trimmed
formatted system message, and not the not_directory error. -/
theorem stat_fs_winapi_attr_failure (env : WinEnv) (p : PathTerm)
    (bytes : List Nat) (s : String)
    (hdec : decodePath p = some bytes) (hne : bytes.isEmpty = false)
    (hutf : isValidUtf8 bytes = true)
    (hnul : 0 ∉ normalizeLongPath bytes)
    (hattr : env.getFileAttributesW (normalizeLongPath bytes)
      = INVALID_FILE_ATTRIBUTES)
    (hfmt : env.formatMessageW env.lastErrorAttr = some s) :
    stat_fs_windows env p
      = FsResult.errDetail Atom.winapi_failed (Int.ofNat env.lastErrorAttr)
          s.trim ∧
    errorReason (stat_fs_windows env p) ≠ some Atom.not_directory := by
  have h1 : stat_fs_windows env p
      = FsResult.errDetail Atom.winapi_failed (Int.ofNat env.lastErrorAttr)
          s.trim := by
    unfold stat_fs_windows
    rw [hdec]
    simp [hne, hutf, hnul, hattr, make_winapi_error_tuple, hfmt]
  refine ⟨h1, ?_⟩
  rw [h1]
  simp [errorReason]

/-- Witness for C7 at a concrete failed attribute query. -/
theorem stat_fs_winapi_attr_failure_witness :
    stat_fs_windows attrFailWinEnv (PathTerm.bin [67, 58, 92, 120])
      = FsResult.errDetail Atom.winapi_failed (Int.ofNat 3)
          "The system cannot find the path specified. ".trim ∧
    errorReason (stat_fs_windows attrFailWinEnv (PathTerm.bin [67, 58, 92, 120]))
      ≠ some Atom.not_directory :=
  stat_fs_winapi_attr_failure attrFailWinEnv (PathTerm.bin [67, 58, 92, 120])
    [67, 58, 92, 120] "The system cannot find the path specified. "
    (by decide) (by decide) (by decide) (by decide) (by decide) rfl

/-- C8: a successful Linux query scales the statfs counts by the block
size and a successful non-Linux POSIX query scales the statvfs counts by
the fragment size, not the block size, whenever the products fit in 64
bits. -/
theorem stat_fs_scaling_units (envL : LinuxEnv) (envV : StatvfsEnv)
    (p q : PathTerm) (bytesL bytesV : List Nat) (mL mV : Metadata)
    (bufL : StatfsBuf) (bufV : StatvfsBuf)
    (hdecL : decodePath p = some bytesL) (hneL : bytesL.isEmpty = false)
    (hmL : envL.metadata bytesL = Except.ok mL) (hdL : mL.isDir = true)
    (hbL : envL.statfsCall bytesL = Except.ok bufL)
    (hfitAL : bufL.blocksAvailable * bufL.blockSize < 2 ^ 64)
    (hfitFL : bufL.blocksFree * bufL.blockSize < 2 ^ 64)
    (hfitTL : bufL.blocks * bufL.blockSize < 2 ^ 64)
    (hdecV : decodePath q = some bytesV) (hneV : bytesV.isEmpty = false)
    (hmV : envV.metadata bytesV = Except.ok mV) (hdV : mV.isDir = true)
    (hbV : envV.statvfsCall bytesV = Except.ok bufV)
    (hfitAV : bufV.blocksAvailable * bufV.fragmentSize < 2 ^ 64)
    (hfitFV : bufV.blocksFree * bufV.fragmentSize < 2 ^ 64)
    (hfitTV : bufV.blocks * bufV.fragmentSize < 2 ^ 64) :
    stat_fs_linux envL p = FsResult.okStats
      (bufL.blocksAvailable * bufL.blockSize)
      (bufL.blocksFree * bufL.blockSize)
      (bufL.blocks * bufL.blockSize)
      (bufL.blocks * bufL.blockSize - bufL.blocksFree * bufL.blockSize) ∧
    stat_fs_statvfs envV q = FsResult.okStats
      (bufV.blocksAvailable * bufV.fragmentSize)
      (bufV.blocksFree * bufV.fragmentSize)
      (bufV.blocks * bufV.fragmentSize)
      (bufV.blocks * bufV.fragmentSize
        - bufV.blocksFree * bufV.fragmentSize) := by
  constructor
  · rw [stat_fs_linux_eval envL p bytesL mL bufL hdecL hneL hmL hdL hbL,
      Nat.mod_eq_of_lt hfitAL, Nat.mod_eq_of_lt hfitFL,
      Nat.mod_eq_of_lt hfitTL]
  · rw [stat_fs_statvfs_eval envV q bytesV mV bufV hdecV hneV hmV hdV hbV,
      Nat.mod_eq_of_lt hfitAV, Nat.mod_eq_of_lt hfitFV,
      Nat.mod_eq_of_lt hfitTV]

/-- Witness for C8: the statvfs side scales by the fragment size 512
although the buffer also reports block size 4096. -/
theorem stat_fs_scaling_units_witness :
    stat_fs_linux sampleLinuxEnv (PathTerm.bin [46])
      = FsResult.okStats (10 * 4096) (20 * 4096) (30 * 4096)
          (30 * 4096 - 20 * 4096) ∧
    stat_fs_statvfs sampleStatvfsEnv (PathTerm.bin [46])
      = FsResult.okStats (3 * 512) (5 * 512) (7 * 512)
          (7 * 512 - 5 * 512) :=
  stat_fs_scaling_units sampleLinuxEnv sampleStatvfsEnv
    (PathTerm.bin [46]) (PathTerm.bin [46]) [46] [46]
    { isDir := true } { isDir := true }
    { blockSize := 4096, blocksAvailable := 10, blocksFree := 20,
      blocks := 30 }
    { blockSize := 4096, fragmentSize := 512, blocksAvailable := 3,
      blocksFree := 5, blocks := 7 }
    (by decide) (by decide) rfl (by decide) rfl
    (by decide) (by decide) (by decide)
    (by decide) (by decide) rfl (by decide) rfl
    (by decide) (by decide) (by decide)

/-- C9: on Windows, a non-empty path that is not valid UTF-8, and a valid
path whose normalized long form holds an interior nul and so cannot be
transcoded to a null-terminated wide string, both yield the bare
path_conversion_failed error. -/
theorem stat_fs_path_conversion_failed (env env2 : WinEnv) (p q : PathTerm)
    (bytes bytes2 : List Nat)
    (hdec : decodePath p = some bytes) (hne : bytes.isEmpty = false)
    (hbad : isValidUtf8 bytes = false)
    (hdec2 : decodePath q = some bytes2) (hne2 : bytes2.isEmpty = false)
    (hok2 : isValidUtf8 bytes2 = true)
    (hnul2 : 0 ∈ normalizeLongPath bytes2) :
    stat_fs_windows env p = FsResult.err Atom.path_conversion_failed ∧
    stat_fs_windows env2 q = FsResult.err Atom.path_conversion_failed := by
  constructor
  · unfold stat_fs_windows
    rw [hdec]
    simp [hne, hbad, make_error_tuple]
  · unfold stat_fs_windows
    rw [hdec2]
    simp [hne2, hok2, hnul2, make_error_tuple]

/-- Witness for C9 at the invalid byte 255 and at a path holding an
interior nul byte. -/
theorem stat_fs_path_conversion_failed_witness :
    stat_fs_windows fileWinEnv (PathTerm.bin [255])
      = FsResult.err Atom.path_conversion_failed ∧
    stat_fs_windows fileWinEnv (PathTerm.bin [97, 0])
      = FsResult.err Atom.path_conversion_failed :=
  stat_fs_path_conversion_failed fileWinEnv fileWinEnv
    (PathTerm.bin [255]) (PathTerm.bin [97, 0]) [255] [97, 0]
    (by decide) (by decide) (by decide)
    (by decide) (by decide) (by decide) (by decide)

/-- C10: on POSIX the byte scaling is unchecked 64-bit multiplication:
each of the available, free and total fields is the raw count times the
unit size taken modulo 2 to the 64, so large counts wrap, while only the
used field is computed with saturating subtraction. -/
theorem stat_fs_unchecked_multiplication (envL : LinuxEnv)
    (envV : StatvfsEnv) (p q : PathTerm) (bytesL bytesV : List Nat)
    (mL mV : Metadata) (bufL : StatfsBuf) (bufV : StatvfsBuf)
    (hdecL : decodePath p = some bytesL) (hneL : bytesL.isEmpty = false)
    (hmL : envL.metadata bytesL = Except.ok mL) (hdL : mL.isDir = true)
    (hbL : envL.statfsCall bytesL = Except.ok bufL)
    (hdecV : decodePath q = some bytesV) (hneV : bytesV.isEmpty = false)
    (hmV : envV.metadata bytesV = Except.ok mV) (hdV : mV.isDir = true)
    (hbV : envV.statvfsCall bytesV = Except.ok bufV) :
    stat_fs_linux envL p = FsResult.okStats
      (bufL.blocksAvailable * bufL.blockSize % 2 ^ 64)
      (bufL.blocksFree * bufL.blockSize % 2 ^ 64)
      (bufL.blocks * bufL.blockSize % 2 ^ 64)
      (bufL.blocks * bufL.blockSize % 2 ^ 64
        - bufL.blocksFree * bufL.blockSize % 2 ^ 64) ∧
    stat_fs_statvfs envV q = FsResult.okStats
      (bufV.blocksAvailable * bufV.fragmentSize % 2 ^ 64)
      (bufV.blocksFree * bufV.fragmentSize % 2 ^ 64)
      (bufV.blocks * bufV.fragmentSize % 2 ^ 64)
      (bufV.blocks * bufV.fragmentSize % 2 ^ 64
        - bufV.blocksFree * bufV.fragmentSize % 2 ^ 64) :=
  ⟨stat_fs_linux_eval envL p bytesL mL bufL hdecL hneL hmL hdL hbL,
   stat_fs_statvfs_eval envV q bytesV mV bufV hdecV hneV hmV hdV hbV⟩

/-- Witness for C10 at buffers whose products overflow 64 bits: the
available and total fields wrap to zero and the saturating used field
clamps to zero instead of wrapping. -/
theorem stat_fs_unchecked_multiplication_witness :
    stat_fs_linux wrapLinuxEnv (PathTerm.bin [47])
      = FsResult.okStats 0 4 0 0 ∧
    stat_fs_statvfs wrapStatvfsEnv (PathTerm.bin [47])
      = FsResult.okStats 0 4294967296 0 0 := by
  have h := stat_fs_unchecked_multiplication wrapLinuxEnv wrapStatvfsEnv
    (PathTerm.bin [47]) (PathTerm.bin [47]) [47] [47]
    { isDir := true } { isDir := true }
    { blockSize := 4, blocksAvailable := 2 ^ 63, blocksFree := 1,
      blocks := 2 ^ 63 }
    { blockSize := 4096, fragmentSize := 2 ^ 32, blocksAvailable := 2 ^ 32,
      blocksFree := 1, blocks := 2 ^ 32 }
    (by decide) (by decide) rfl (by decide) rfl
    (by decide) (by decide) rfl (by decide) rfl
  exact ⟨h.1.trans (by decide), h.2.trans (by decide)⟩

end DiskSpace
